import Mathlib

/-
Verification of the channel-URL resolver and surrounding services of the
YoutubeKnowledgeSync repository, shallowly embedded in Lean 4.

The embedding follows src/server/services/youtube.ts (URL pattern matching
and username/handle resolution), src/server/services/openai.ts (both
revisions of summarizeVideo), src/server/storage.ts (MemStorage and
DatabaseStorage deleteVideo), src/shared/schema.ts (summaries table),
and src/unnamed/part_003 (background summary-generation task and the
cancel endpoint).

Network effects are modelled by an explicit upstream oracle; each fetch
performed is recorded in an ordered call list.  JavaScript regular
expression matching (leftmost match, greedy capture) is modelled by an
explicit scanner over character lists.
-/

namespace YTSync

/-! ## Character classes of the URL regular expressions

The source patterns (src/server/services/youtube.ts lines 143-151):
  /youtube\.com\/channel\/([a-zA-Z0-9_-]+)/   (direct channel id)
  /youtube\.com\/@([a-zA-Z0-9_.-]+)/          (handle)
  /youtube\.com\/c\/([a-zA-Z0-9_.-]+)/        (legacy custom URL)
  /youtube\.com\/user\/([a-zA-Z0-9_.-]+)/     (legacy user)
The character classes are ASCII-only, exactly as in the regex source. -/

def isAsciiLetter (c : Char) : Bool :=
  ('a' ≤ c && c ≤ 'z') || ('A' ≤ c && c ≤ 'Z')

def isAsciiDigit (c : Char) : Bool :=
  '0' ≤ c && c ≤ '9'

/-- Character class `[a-zA-Z0-9_-]` of the direct channel-id pattern. -/
def clsChannelId (c : Char) : Bool :=
  isAsciiLetter c || isAsciiDigit c || c = '_' || c = '-'

/-- Character class `[a-zA-Z0-9_.-]` of the handle / legacy patterns. -/
def clsHandle (c : Char) : Bool :=
  isAsciiLetter c || isAsciiDigit c || c = '_' || c = '.' || c = '-'

/-! ## Leftmost-match scanner for patterns of the form  literal ++ class+  -/

/-- If `s` starts with the literal `lit`, return the remainder of `s`,
otherwise `none`. -/
def stripLit : List Char → List Char → Option (List Char)
  | [], s => some s
  | _ :: _, [] => none
  | a :: as, b :: bs => if a = b then stripLit as bs else none

/-- JavaScript regex search for `lit` followed by a non-empty greedy capture
of characters satisfying `cls`: try each position left to right; at a
position the pattern matches iff the literal is present there and at least
one class character follows; the capture is the maximal class run. -/
def findCap (lit : List Char) (cls : Char → Bool) : List Char → Option (List Char)
  | [] => none
  | c :: cs =>
    match stripLit lit (c :: cs) with
    | some rest =>
      if (rest.takeWhile cls).isEmpty then findCap lit cls cs
      else some (rest.takeWhile cls)
    | none => findCap lit cls cs

def litChannel : List Char := "youtube.com/channel/".toList

def litHandle : List Char := "youtube.com/@".toList

def litC : List Char := "youtube.com/c/".toList

def litUser : List Char := "youtube.com/user/".toList

/-! ## Upstream oracle

Models the YouTube Data API endpoints reached by the service, together
with the three ways a `fetch` can turn out in the source: the fetch (or
`.json()`) throws, the response has a non-success status (`response.ok`
false), or it succeeds with a possibly missing `items` array. -/

inductive FetchOut (α : Type) where
  | throws : FetchOut α
  | notOk (status : Nat) : FetchOut α
  | ok (items : Option (List α)) : FetchOut α
deriving DecidableEq

/-- Channel resource of the `channels?forUsername=` endpoint (only its `id`
is consumed by the resolver). -/
structure ChanItem where
  id : String
deriving DecidableEq

/-- Search result snippet of the `search?type=channel` endpoint. -/
structure SearchItem where
  channelId : String
  title : Option String
  customUrl : Option String
  description : Option String
deriving DecidableEq

/-- Channel resource of the `channels?part=snippet&id=` endpoint used by
getChannelInfo. -/
structure ChanFull where
  id : String
  title : String
  thumbMedium : Option String
  thumbDefault : Option String
deriving DecidableEq

structure Upstream where
  forUser : String → FetchOut ChanItem
  searchAt : String → FetchOut SearchItem
  searchNoAt : String → FetchOut SearchItem
  byId : String → FetchOut ChanFull

/-- One network call issued by the service, recorded in order. -/
inductive UpCall where
  | forUsername (u : String)
  | searchAt (u : String)
  | searchNoAt (u : String)
  | channelsById (id : String)
deriving DecidableEq

/-! ## resolveUsernameToChannelId (youtube.ts lines 175-241) -/

/-- ASCII lowercasing, the effect of JavaScript `toLowerCase` on the ASCII
strings manipulated by the resolver. -/
def lowerStr (s : String) : String :=
  String.mk (s.toList.map Char.toLower)

def listStartsWith : List Char → List Char → Bool
  | _, [] => true
  | [], _ :: _ => false
  | a :: as, b :: bs => a = b && listStartsWith as bs

def listHasSub : List Char → List Char → Bool
  | [], pat => pat.isEmpty
  | s@(_ :: cs), pat => listStartsWith s pat || listHasSub cs pat

/-- JavaScript `String.prototype.includes`. -/
def strContains (s pat : String) : Bool :=
  listHasSub s.toList pat.toList

/-- The three per-candidate checks of the tier-2 search loop, in source
order: exact custom-URL match, custom-URL containment, exact title match
(all after lowercasing; missing fields default to the empty string). -/
def itemMatches (username : String) (it : SearchItem) : Bool :=
  let customUrl := lowerStr (it.customUrl.getD "")
  let title := lowerStr (it.title.getD "")
  let target := "@" ++ lowerStr username
  customUrl = target || strContains customUrl target || title = lowerStr username

/-- Third tier: search without the `@` prefix, take the first result. -/
def tier3 (up : Upstream) (username : String) (acc : List UpCall) :
    Option String × List UpCall :=
  let acc := acc ++ [UpCall.searchNoAt username]
  match up.searchNoAt username with
  | .ok (some (item :: _)) => (some item.channelId, acc)
  | _ => (none, acc)

/-- Second tier: search for `@username`; scan candidates in response order
returning the first one matching any of the three checks, else fall back
to the first result; on a thrown fetch the surrounding catch yields null;
a non-success status or an empty list falls through to tier 3. -/
def tier2 (up : Upstream) (username : String) (acc : List UpCall) :
    Option String × List UpCall :=
  let acc := acc ++ [UpCall.searchAt username]
  match up.searchAt username with
  | .throws => (none, acc)
  | .ok (some (first :: rest)) =>
    match (first :: rest).find? (itemMatches username) with
    | some it => (some it.channelId, acc)
    | none => (some first.channelId, acc)
  | _ => tier3 up username acc

/-- resolveUsernameToChannelId: legacy `forUsername` lookup, then `@`
search, then plain search; any thrown fetch is caught and yields null. -/
def resolveUsernameToChannelId (up : Upstream) (username : String) :
    Option String × List UpCall :=
  let acc := [UpCall.forUsername username]
  match up.forUser username with
  | .throws => (none, acc)
  | .ok (some (item :: _)) => (some item.id, acc)
  | _ => tier2 up username acc

/-! ## extractChannelId (youtube.ts lines 140-173) -/

/-- extractChannelId: try the four URL patterns in order; the direct
channel-id capture is returned as-is with no network call; captures of the
other three shapes are resolved via resolveUsernameToChannelId. -/
def extractChannelId (up : Upstream) (url : String) :
    Option String × List UpCall :=
  let s := url.toList
  match findCap litChannel clsChannelId s with
  | some cap => (some (String.mk cap), [])
  | none =>
  match findCap litHandle clsHandle s with
  | some cap => resolveUsernameToChannelId up (String.mk cap)
  | none =>
  match findCap litC clsHandle s with
  | some cap => resolveUsernameToChannelId up (String.mk cap)
  | none =>
  match findCap litUser clsHandle s with
  | some cap => resolveUsernameToChannelId up (String.mk cap)
  | none => (none, [])

/-! ## getChannelInfo (youtube.ts lines 49-79) -/

inductive ChanInfoOut where
  | thrown (msg : String)
  | noItems
  | info (channelId name thumbnailUrl : String)
deriving DecidableEq

def invalidUrlMsg : String := "유효하지 않은 채널 URL입니다."

/-- JavaScript `a || b` on an optional string (empty string is falsy). -/
def jsOr (a : Option String) (b : String) : String :=
  match a with
  | some s => if s = "" then b else s
  | none => b

/-- getChannelInfo: resolve the URL to a channel id (a null or empty id
throws the invalid-URL error before any further fetch), then fetch the
channel snippet by id; non-success status throws, an empty item list
returns null. -/
def getChannelInfo (up : Upstream) (url : String) : ChanInfoOut × List UpCall :=
  match extractChannelId up url with
  | (none, calls) => (.thrown invalidUrlMsg, calls)
  | (some cid, calls) =>
    if cid = "" then (.thrown invalidUrlMsg, calls)
    else
      let calls := calls ++ [UpCall.channelsById cid]
      match up.byId cid with
      | .throws => (.thrown "fetch failed", calls)
      | .notOk _ => (.thrown "YouTube API 오류", calls)
      | .ok none => (.noItems, calls)
      | .ok (some []) => (.noItems, calls)
      | .ok (some (ch :: _)) =>
        (.info ch.id ch.title (jsOr ch.thumbMedium (jsOr ch.thumbDefault "")), calls)

/-! ## Concrete upstream oracles used by witnesses and counterexamples -/

/-- An upstream whose every endpoint replies with a non-success status. -/
def upAllNotOk : Upstream :=
  { forUser := fun _ => .notOk 503
    searchAt := fun _ => .notOk 503
    searchNoAt := fun _ => .notOk 503
    byId := fun _ => .notOk 503 }

/-- An upstream whose every endpoint succeeds with zero candidates. -/
def upAllEmpty : Upstream :=
  { forUser := fun _ => .ok (some [])
    searchAt := fun _ => .ok (some [])
    searchNoAt := fun _ => .ok (some [])
    byId := fun _ => .ok (some []) }

/-- Replace every non-success status reply by a successful empty reply,
leaving thrown errors and successful replies unchanged. -/
def okIfNotOk {α : Type} : FetchOut α → FetchOut α
  | .notOk _ => .ok (some [])
  | x => x

/-- The upstream obtained by replacing each non-success status reply with a
successful zero-candidate reply. -/
def normalizeUp (up : Upstream) : Upstream :=
  { forUser := fun q => okIfNotOk (up.forUser q)
    searchAt := fun q => okIfNotOk (up.searchAt q)
    searchNoAt := fun q => okIfNotOk (up.searchNoAt q)
    byId := fun q => okIfNotOk (up.byId q) }

/-- True when a tier-1 lookup reply carries no usable candidate: a
non-success status, a missing items array, or an empty items array.  In
all three cases the source falls through to the next tier. -/
def fetchMisses : FetchOut ChanItem → Bool
  | .notOk _ => true
  | .ok none => true
  | .ok (some []) => true
  | _ => false

/-! ## OpenAIService.summarizeVideo (src/server/services/openai.ts)

The file holds two revisions of the service.  In the first revision
(lines 26-95) `JSON.parse` runs inside the sole try block whose catch
rethrows, so an unparseable response propagates an error.  In the second
revision (lines 213-291) the parse is wrapped in an inner try/catch that
degrades to a fixed minimal record.  Both parse
`summaryText || open-brace close-brace`, so a null or empty response text
is replaced by the empty JSON object text, whose parse always succeeds
with an object having no fields. -/

structure SummarySection where
  title : String
  timestamp : Option String
  content : String
  keyWords : List String
deriving DecidableEq

/-- The concrete VideoSummary record produced by the service. -/
structure VideoSummary where
  title : String
  content : String
  keyPoints : List String
  tags : List String
  sections : List SummarySection
  insights : List String
  coreTheme : String
deriving DecidableEq

/-- A JavaScript object produced by a successful JSON.parse of a
summarization response; every field may be absent. -/
structure ParsedSummary where
  title : Option String
  coreTheme : Option String
  content : Option String
  sections : Option (List SummarySection)
  keyPoints : Option (List String)
  insights : Option (List String)
  tags : Option (List String)
deriving DecidableEq

/-- The object obtained by parsing the empty JSON object text. -/
def emptyParsed : ParsedSummary :=
  { title := none, coreTheme := none, content := none, sections := none
    keyPoints := none, insights := none, tags := none }

/-- Field defaulting of the first revision (lines 82-90): JavaScript
`result.field || default` where an absent or empty string falls back. -/
def buildFromParsed (videoTitle : String) (p : ParsedSummary) : VideoSummary :=
  { title := jsOr p.title videoTitle
    coreTheme := jsOr p.coreTheme "이 콘텐츠의 핵심 주제를 분석합니다."
    content := jsOr p.content "요약을 생성할 수 없습니다."
    sections := p.sections.getD []
    keyPoints := p.keyPoints.getD []
    insights := p.insights.getD []
    tags := p.tags.getD [] }

/-- The minimal record the second revision returns when JSON parsing of a
non-empty response text fails (openai.ts lines 277-285). -/
def fallbackSummary (videoTitle : String) (summaryText : String) : VideoSummary :=
  { title := videoTitle
    content := if summaryText = "" then "요약 생성 중 오류가 발생했습니다." else summaryText
    keyPoints := []
    sections := []
    tags := []
    insights := []
    coreTheme := "영상 분석" }

/-- Result of the second-revision summarizeVideo: either the parsed
JavaScript object returned as-is, or the minimal fallback record. -/
inductive SummarizeOut where
  | parsed (p : ParsedSummary)
  | fallback (v : VideoSummary)
deriving DecidableEq

/-- Second-revision summarizeVideo response handling (lines 269-286):
parse `summaryText || empty-object-text`; on success return the parsed
object unchanged; on failure return the minimal fallback record.  `parse`
is the JSON parser on non-empty texts; a null or empty text never reaches
it because the empty-object text is substituted first. -/
def summarizeSecondRev (videoTitle : String) (summaryText : Option String)
    (parse : String → Option ParsedSummary) : SummarizeOut :=
  let text := summaryText.getD ""
  if text = "" then .parsed emptyParsed
  else
    match parse text with
    | some p => .parsed p
    | none => .fallback (fallbackSummary videoTitle text)

/-- First-revision summarizeVideo response handling (lines 80-94): the
parse runs inside the try block whose catch rethrows a fixed error, so an
unparseable non-empty text yields a thrown error. -/
def summarizeFirstRev (videoTitle : String) (summaryText : Option String)
    (parse : String → Option ParsedSummary) : Except String VideoSummary :=
  let text := summaryText.getD ""
  if text = "" then .ok (buildFromParsed videoTitle emptyParsed)
  else
    match parse text with
    | some p => .ok (buildFromParsed videoTitle p)
    | none => .error "AI 요약 생성에 실패했습니다. API 키와 요청 한도를 확인해주세요."

/-! ## Storage: deleteVideo and the summaries schema

From src/shared/schema.ts (lines 30-42): the summaries table declares
`video_id integer NOT NULL references videos(id)` — the column is not
nullable.  From src/server/storage.ts: both implementations of
deleteVideo delete every summary whose videoId equals the deleted video's
id (MemStorage lines 154-170, DatabaseStorage lines 350-362). -/

/-- Whether schema.ts declares summaries.video_id with `.notNull()`. -/
def summariesVideoIdNotNull : Bool := true

structure SummaryRow where
  id : Nat
  videoId : Nat
  channelId : Nat
deriving DecidableEq

structure VideoRow where
  id : Nat
  channelId : Nat
deriving DecidableEq

structure StoreState where
  videos : List VideoRow
  summaries : List SummaryRow
deriving DecidableEq

/-- MemStorage.deleteVideo: if the video exists, remove it and every
summary whose videoId equals the deleted id; report whether it existed. -/
def memDeleteVideo (st : StoreState) (id : Nat) : StoreState × Bool :=
  let existed := st.videos.any (fun v => v.id = id)
  if existed then
    ({ videos := st.videos.filter (fun v => v.id ≠ id)
       summaries := st.summaries.filter (fun s => s.videoId ≠ id) }, true)
  else (st, false)

/-- DatabaseStorage.deleteVideo: first delete every summary whose videoId
equals the id, then delete the video, reporting whether a video row was
removed. -/
def dbDeleteVideo (st : StoreState) (id : Nat) : StoreState × Bool :=
  let st1 : StoreState :=
    { videos := st.videos
      summaries := st.summaries.filter (fun s => s.videoId ≠ id) }
  let deleted := st1.videos.any (fun v => v.id = id)
  ({ videos := st1.videos.filter (fun v => v.id ≠ id)
     summaries := st1.summaries }, deleted)

/-! ## Background summary-generation task (src/unnamed/part_003 lines 589-650)

The task runs four stages in sequence: transcript fetch (the source's
getVideoTranscript always returns null and never throws), a first abort
check, the LLM call (which may throw), a second abort check, and the
persistence write (which may throw).  The abort signal is read exactly at
the two checks; the cancel endpoint (lines 820-848) only calls
`controller.abort()` and updates the store entry. -/

inductive TaskStatus where
  | processing
  | completed
  | cancelled
  | failed
deriving DecidableEq

/-- When, relative to the two abort checks, the AbortController was
aborted: `early` before the first check, `mid` between the checks, `late`
after the second check, or `never`. -/
inductive AbortTime where
  | early
  | mid
  | late
  | never
deriving DecidableEq

/-- Whether the first check observes the signal as aborted. -/
def seenAtCheck1 : AbortTime → Bool
  | .early => true
  | _ => false

/-- Whether the second check observes the signal as aborted. -/
def seenAtCheck2 : AbortTime → Bool
  | .early => true
  | .mid => true
  | _ => false

structure TaskOutcome where
  status : TaskStatus
  wrotePersisted : Bool
deriving DecidableEq

/-- The background task body: after the transcript stage the first abort
check runs; if it sees the abort the task records cancelled and returns
before any write.  Otherwise the LLM call runs (a throw is caught and
recorded as failed).  Then the second abort check runs likewise.  Only
past both checks is createSummary attempted; a throw there is recorded as
failed with no summary persisted, otherwise the task completes. -/
def runSummaryTask (t : AbortTime) (llmThrows writeThrows : Bool) : TaskOutcome :=
  if seenAtCheck1 t then { status := .cancelled, wrotePersisted := false }
  else if llmThrows then { status := .failed, wrotePersisted := false }
  else if seenAtCheck2 t then { status := .cancelled, wrotePersisted := false }
  else if writeThrows then { status := .failed, wrotePersisted := false }
  else { status := .completed, wrotePersisted := true }

/-! ## Auxiliary predicates for theorem statements -/

/-- True when the list is empty or its head is outside the class: the
greedy capture ending exactly where `post` begins. -/
def headNotCls (cls : Char → Bool) : List Char → Bool
  | [] => true
  | c :: _ => !(cls c)

/-- None of the four URL patterns matches the given URL. -/
def noShapeMatch (url : String) : Prop :=
  findCap litChannel clsChannelId url.toList = none ∧
  findCap litHandle clsHandle url.toList = none ∧
  findCap litC clsHandle url.toList = none ∧
  findCap litUser clsHandle url.toList = none

instance (url : String) : Decidable (noShapeMatch url) := by
  unfold noShapeMatch
  infer_instance

/-! ## Scanner lemmas -/

lemma stripLit_self : ∀ (lit rest : List Char), stripLit lit (lit ++ rest) = some rest
  | [], _ => rfl
  | _ :: as, rest => by simp [stripLit, stripLit_self as rest]

lemma takeWhile_exact (cls : Char → Bool) :
    ∀ (id post : List Char), (∀ c ∈ id, cls c = true) → headNotCls cls post = true →
      (id ++ post).takeWhile cls = id := by
  intro id
  induction id with
  | nil =>
    intro post _ hpost
    cases post with
    | nil => rfl
    | cons c cs =>
      have hc : cls c = false := by simpa [headNotCls] using hpost
      simp [List.takeWhile, hc]
  | cons x xs ih =>
    intro post hcls hpost
    have hx : cls x = true := hcls x (by simp)
    have hxs : ∀ c ∈ xs, cls c = true := fun c hc => hcls c (by simp [hc])
    simp [List.takeWhile, hx, ih post hxs hpost]

/-- Unfolding equation of the scanner at a cons cell. -/
lemma findCap_cons (lit : List Char) (cls : Char → Bool) (c : Char) (cs : List Char) :
    findCap lit cls (c :: cs) =
      match stripLit lit (c :: cs) with
      | some rest =>
        if (rest.takeWhile cls).isEmpty then findCap lit cls cs
        else some (rest.takeWhile cls)
      | none => findCap lit cls cs := rfl

/-- Where the literal first occurs (no earlier occurrence, all capture
characters in class, `post` starting outside the class), the scanner
returns exactly the segment between the literal and `post`. -/
lemma findCap_exact (lit : List Char) (cls : Char → Bool) :
    ∀ (pre id post : List Char),
      lit ≠ [] → id ≠ [] → (∀ c ∈ id, cls c = true) → headNotCls cls post = true →
      (∀ i, i < pre.length →
        stripLit lit (List.drop i (pre ++ (lit ++ (id ++ post)))) = none) →
      findCap lit cls (pre ++ (lit ++ (id ++ post))) = some id := by
  intro pre
  induction pre with
  | nil =>
    intro id post hlit hidNe hcls hpost _
    cases lit with
    | nil => exact absurd rfl hlit
    | cons l ls =>
      have hs := stripLit_self (l :: ls) (id ++ post)
      have htw : (id ++ post).takeWhile cls = id := takeWhile_exact cls id post hcls hpost
      cases id with
      | nil => exact absurd rfl hidNe
      | cons x xs =>
        simp only [List.nil_append, List.cons_append] at hs htw ⊢
        rw [findCap_cons, hs]
        simp [htw]
  | cons p ps ih =>
    intro id post hlit hidNe hcls hpost hpre
    have h0 : stripLit lit (p :: (ps ++ (lit ++ (id ++ post)))) = none := by
      have := hpre 0 (by simp)
      simpa using this
    have hpre' : ∀ i, i < ps.length →
        stripLit lit (List.drop i (ps ++ (lit ++ (id ++ post)))) = none := by
      intro i hi
      have := hpre (i + 1) (by simpa using Nat.succ_lt_succ hi)
      simpa [List.drop_succ_cons] using this
    have hrec := ih id post hlit hidNe hcls hpost hpre'
    simp only [List.cons_append]
    rw [findCap_cons, h0]
    exact hrec

end YTSync

namespace YTSync

/-! ## Claim theorems -/

/-- C1 (amended): for every URL of the form `pre ++ "youtube.com/channel/"
++ id ++ post` where `id` is a non-empty run of ASCII letters, digits,
underscores or hyphens, `post` does not begin with such a character, and
the literal followed by a capturable character occurs first at that
position (no match position inside `pre`), the resolver returns `id`
itself with zero network calls. -/
theorem direct_channel_url_resolves (up : Upstream) (pre id post : List Char)
    (hidNe : id ≠ [])
    (hid : ∀ c ∈ id, clsChannelId c = true)
    (hpost : headNotCls clsChannelId post = true)
    (hpre : ∀ i, i < pre.length →
      stripLit litChannel (List.drop i (pre ++ (litChannel ++ (id ++ post)))) = none) :
    extractChannelId up (String.mk (pre ++ (litChannel ++ (id ++ post)))) =
      (some (String.mk id), []) := by
  have h := findCap_exact litChannel clsChannelId pre id post (by decide) hidNe hid hpost hpre
  unfold extractChannelId
  simp [String.toList, h]

/-- C1 witness: the spec's concrete scenario — the input
`https://www.youtube.com/channel/UCabc123` resolves to `UCabc123` with
zero network calls, via the amended theorem. -/
theorem direct_channel_url_resolves_witness :
    extractChannelId upAllNotOk "https://www.youtube.com/channel/UCabc123" =
      (some "UCabc123", []) := by
  have h := direct_channel_url_resolves upAllNotOk
    "https://www.".toList "UCabc123".toList []
    (by decide) (by decide) (by decide) (by decide)
  exact h

/-- C1 counterexample: the URL `https://www.youtube.com/channel/UC.abc`
contains the segment `youtube.com/channel/UC.abc` with non-empty id
`UC.abc`, but the resolver returns `UC` — the capture stops at the first
character outside `[a-zA-Z0-9_-]` — so the claim as stated is false. -/
theorem direct_channel_url_truncates_cex :
    extractChannelId upAllNotOk "https://www.youtube.com/channel/UC.abc" =
      (some "UC", []) ∧ ("UC" : String) ≠ "UC.abc" := by
  exact ⟨rfl, by decide⟩

/-- C2: the handle pattern is ASCII-only (`[a-zA-Z0-9_.-]`), so a URL with
a Korean handle matches no shape: extractChannelId returns null with zero
network calls and name resolution is never reached, although the URL does
contain the handle marker `youtube.com/@`.  This contradicts the repo's
own documentation (replit.md: regex patterns modified to support Unicode
characters in channel URLs, including Korean usernames). -/
theorem korean_handle_shape_rejected :
    (∀ up : Upstream,
      extractChannelId up "https://www.youtube.com/@한글채널" = (none, [])) ∧
    strContains "https://www.youtube.com/@한글채널" "youtube.com/@" = true := by
  exact ⟨fun _ => rfl, by decide⟩

/-- C7: a URL matching none of the four recognized shapes makes
getChannelInfo fail with the invalid-channel-URL error (the NotFound
condition) before any network call is issued. -/
theorem unmatched_url_not_found_no_calls (up : Upstream) (url : String)
    (h : noShapeMatch url) :
    getChannelInfo up url = (.thrown invalidUrlMsg, []) := by
  obtain ⟨h1, h2, h3, h4⟩ := h
  simp only [String.toList] at h1 h2 h3 h4
  have he : extractChannelId up url = (none, []) := by
    unfold extractChannelId
    simp only [String.toList, h1, h2, h3, h4]
  unfold getChannelInfo
  rw [he]

/-- C7 witness: a bare video URL matches no shape and yields the
invalid-URL failure with zero calls. -/
theorem unmatched_url_not_found_no_calls_witness :
    noShapeMatch "https://youtu.be/dQw4w9WgXcQ" ∧
    getChannelInfo upAllNotOk "https://youtu.be/dQw4w9WgXcQ" =
      (.thrown invalidUrlMsg, []) := by
  exact ⟨by decide, unmatched_url_not_found_no_calls upAllNotOk _ (by decide)⟩

/-- C4 counterexample: against an upstream whose every endpoint replies
with a non-success status and one whose every endpoint succeeds with zero
candidates, resolution produces byte-for-byte identical outcomes (null,
same calls) — there is no distinct UpstreamUnavailable error a caller
could tell apart. -/
theorem upstream_vs_empty_indistinguishable_cex :
    resolveUsernameToChannelId upAllNotOk "testuser" =
      resolveUsernameToChannelId upAllEmpty "testuser" := rfl

/-- C4 (amended): when the lookup and both search endpoints reply with a
non-success status, resolution returns null after visiting all three
tiers — exactly the same observable outcome as when every tier succeeds
with zero candidates; the two cases are not distinguished. -/
theorem all_tiers_down_same_as_all_empty (up1 up2 : Upstream) (u : String)
    (h1 : ∃ s, up1.forUser u = .notOk s)
    (h2 : ∃ s, up1.searchAt u = .notOk s)
    (h3 : ∃ s, up1.searchNoAt u = .notOk s)
    (h4 : up2.forUser u = .ok (some []))
    (h5 : up2.searchAt u = .ok (some []))
    (h6 : up2.searchNoAt u = .ok (some [])) :
    resolveUsernameToChannelId up1 u =
      (none, [UpCall.forUsername u, UpCall.searchAt u, UpCall.searchNoAt u]) ∧
    resolveUsernameToChannelId up1 u = resolveUsernameToChannelId up2 u := by
  obtain ⟨s1, h1⟩ := h1
  obtain ⟨s2, h2⟩ := h2
  obtain ⟨s3, h3⟩ := h3
  constructor
  · simp [resolveUsernameToChannelId, tier2, tier3, h1, h2, h3]
  · simp [resolveUsernameToChannelId, tier2, tier3, h1, h2, h3, h4, h5, h6]

/-- C4 witness: the amended theorem applied to the two concrete upstreams. -/
theorem all_tiers_down_same_as_all_empty_witness :
    resolveUsernameToChannelId upAllNotOk "someuser" =
      (none, [UpCall.forUsername "someuser", UpCall.searchAt "someuser",
              UpCall.searchNoAt "someuser"]) ∧
    resolveUsernameToChannelId upAllNotOk "someuser" =
      resolveUsernameToChannelId upAllEmpty "someuser" :=
  all_tiers_down_same_as_all_empty upAllNotOk upAllEmpty "someuser"
    ⟨503, rfl⟩ ⟨503, rfl⟩ ⟨503, rfl⟩ rfl rfl rfl

/-! Upstreams distinguishing a thrown transport error from an empty
candidate list at tier 1 (for C10). -/

def sampleHit : SearchItem :=
  { channelId := "UCsample", title := some "u", customUrl := some "@u"
    description := none }

/-- Tier 1 throws; tier 2 would find a candidate. -/
def upThrowTier1 : Upstream :=
  { forUser := fun _ => .throws
    searchAt := fun _ => .ok (some [sampleHit])
    searchNoAt := fun _ => .ok (some [])
    byId := fun _ => .notOk 500 }

/-- Tier 1 succeeds with zero candidates; tier 2 finds the candidate. -/
def upEmptyTier1 : Upstream :=
  { forUser := fun _ => .ok (some [])
    searchAt := fun _ => .ok (some [sampleHit])
    searchNoAt := fun _ => .ok (some [])
    byId := fun _ => .notOk 500 }

/-- C10 counterexample: a thrown transport error is not observationally
identical to an empty candidate set — a throw at tier 1 aborts resolution
to null, while an empty tier-1 reply lets tier 2 return an identifier. -/
theorem thrown_error_not_like_empty_cex :
    (resolveUsernameToChannelId upThrowTier1 "u").1 = none ∧
    (resolveUsernameToChannelId upEmptyTier1 "u").1 = some "UCsample" ∧
    (resolveUsernameToChannelId upThrowTier1 "u").1 ≠
      (resolveUsernameToChannelId upEmptyTier1 "u").1 := by
  refine ⟨rfl, rfl, by decide⟩

lemma tier3_normalize (up : Upstream) (u : String) (acc : List UpCall) :
    tier3 (normalizeUp up) u acc = tier3 up u acc := by
  unfold tier3 normalizeUp okIfNotOk
  cases h : up.searchNoAt u with
  | throws => simp [h]
  | notOk s => simp [h]
  | ok items =>
    cases items with
    | none => simp [h]
    | some l =>
      cases l with
      | nil => simp [h]
      | cons a t => simp [h]

lemma tier2_normalize (up : Upstream) (u : String) (acc : List UpCall) :
    tier2 (normalizeUp up) u acc = tier2 up u acc := by
  unfold tier2
  have hn : (normalizeUp up).searchAt u = okIfNotOk (up.searchAt u) := rfl
  rw [hn]
  cases h : up.searchAt u with
  | throws => simp [okIfNotOk]
  | notOk s => simp [okIfNotOk, tier3_normalize]
  | ok items =>
    cases items with
    | none => simp [okIfNotOk, tier3_normalize]
    | some l =>
      cases l with
      | nil => simp [okIfNotOk, tier3_normalize]
      | cons a t => simp [okIfNotOk]

lemma resolve_normalize (up : Upstream) (u : String) :
    resolveUsernameToChannelId (normalizeUp up) u = resolveUsernameToChannelId up u := by
  unfold resolveUsernameToChannelId
  have hn : (normalizeUp up).forUser u = okIfNotOk (up.forUser u) := rfl
  rw [hn]
  cases h : up.forUser u with
  | throws => simp [okIfNotOk]
  | notOk s => simp [okIfNotOk, tier2_normalize]
  | ok items =>
    cases items with
    | none => simp [okIfNotOk, tier2_normalize]
    | some l =>
      cases l with
      | nil => simp [okIfNotOk, tier2_normalize]
      | cons a t => simp [okIfNotOk]

/-- C10 (amended): extractChannelId and resolveUsernameToChannelId are
total by construction — for every upstream behaviour they return an
identifier or null, never an exception — and a non-success HTTP status at
any tier is observationally identical to a successful empty candidate
list: replacing every non-success reply by an empty success changes
neither the result nor the calls issued.  (A thrown transport error is
not covered by this equivalence: it aborts resolution to null.) -/
theorem resolver_total_status_like_empty (up : Upstream) (u url : String) :
    resolveUsernameToChannelId (normalizeUp up) u =
      resolveUsernameToChannelId up u ∧
    extractChannelId (normalizeUp up) url = extractChannelId up url := by
  constructor
  · exact resolve_normalize up u
  · unfold extractChannelId
    simp only [resolve_normalize]

/-- C5: deleting a video removes every summary that referenced it, in both
storage implementations, and schema.ts declares summaries.video_id NOT
NULL — the summary does not survive.  Concrete run: one video (id 1) with
one summary; after deleteVideo 1 the summary store is empty. -/
theorem delete_video_removes_summaries :
    (memDeleteVideo ⟨[⟨1, 1⟩], [⟨1, 1, 1⟩]⟩ 1 =
      ({ videos := [], summaries := [] }, true)) ∧
    (dbDeleteVideo ⟨[⟨1, 1⟩], [⟨1, 1, 1⟩]⟩ 1 =
      ({ videos := [], summaries := [] }, true)) ∧
    summariesVideoIdNotNull = true := by
  decide

/-- C9: the abort signal is sampled exactly at the two stage boundaries:
an abort before the first check (after the transcript stage) or — when the
LLM call returns — before the second check makes the task record status
cancelled with no summary persisted, while an abort after the second check
leaves the run identical to an unaborted run (the persistence write is
unaffected). -/
theorem cancellation_at_stage_boundaries (llmThrows writeThrows : Bool) :
    runSummaryTask .early llmThrows writeThrows =
      { status := .cancelled, wrotePersisted := false } ∧
    (llmThrows = false →
      runSummaryTask .mid llmThrows writeThrows =
        { status := .cancelled, wrotePersisted := false }) ∧
    runSummaryTask .late llmThrows writeThrows =
      runSummaryTask .never llmThrows writeThrows := by
  refine ⟨rfl, ?_, rfl⟩
  intro h
  subst h
  rfl

/-- C9 witness: the theorem at a run whose LLM call and write succeed. -/
theorem cancellation_at_stage_boundaries_witness :
    runSummaryTask .early false false =
      { status := .cancelled, wrotePersisted := false } ∧
    runSummaryTask .mid false false =
      { status := .cancelled, wrotePersisted := false } ∧
    runSummaryTask .late false false = runSummaryTask .never false false := by
  obtain ⟨a, b, c⟩ := cancellation_at_stage_boundaries false false
  exact ⟨a, b rfl, c⟩

/-! ## Helpers for the tier-2 scan theorems -/

lemma resolve_reach_tier2 (up : Upstream) (u : String)
    (h : fetchMisses (up.forUser u) = true) :
    resolveUsernameToChannelId up u = tier2 up u [UpCall.forUsername u] := by
  unfold resolveUsernameToChannelId
  cases hf : up.forUser u with
  | throws => rw [hf] at h; exact absurd h (by simp [fetchMisses])
  | notOk s => simp
  | ok items =>
    cases items with
    | none => simp
    | some l =>
      cases l with
      | nil => simp
      | cons a t => rw [hf] at h; exact absurd h (by simp [fetchMisses])

lemma find?_all_false {α : Type} (p : α → Bool) :
    ∀ l : List α, (∀ j ∈ l, p j = false) → l.find? p = none := by
  intro l
  induction l with
  | nil => intro; rfl
  | cons a t ih =>
    intro h
    have ha : p a = false := h a (by simp)
    simp [List.find?, ha, ih (fun j hj => h j (by simp [hj]))]

lemma find?_prefix_false {α : Type} (p : α → Bool) :
    ∀ (pre : List α) (it : α) (rest : List α),
      (∀ j ∈ pre, p j = false) → p it = true →
      (pre ++ it :: rest).find? p = some it := by
  intro pre
  induction pre with
  | nil =>
    intro it rest _ hit
    simp [List.find?, hit]
  | cons a t ih =>
    intro it rest hpre hit
    have ha : p a = false := hpre a (by simp)
    have ht : ∀ j ∈ t, p j = false := fun j hj => hpre j (by simp [hj])
    simp [List.find?, ha, ih it rest ht hit]

/-- C6: when tier 1 misses, the `@` search succeeds with a non-empty list,
and no candidate matches any of the three checks (custom-URL equality,
custom-URL containment, title equality), the resolver returns the first
search result's identifier rather than failing. -/
theorem handle_search_fallback_first (up : Upstream) (u : String)
    (first : SearchItem) (rest : List SearchItem)
    (h1 : fetchMisses (up.forUser u) = true)
    (h2 : up.searchAt u = .ok (some (first :: rest)))
    (h3 : ∀ j ∈ first :: rest, itemMatches u j = false) :
    resolveUsernameToChannelId up u =
      (some first.channelId, [UpCall.forUsername u, UpCall.searchAt u]) := by
  rw [resolve_reach_tier2 up u h1]
  unfold tier2
  rw [h2]
  simp [find?_all_false (itemMatches u) (first :: rest) h3]

/-- An upstream whose `@` search returns two candidates, neither matching
the handle `nomatch` by custom-URL or title. -/
def upNoMatch : Upstream :=
  { forUser := fun _ => .ok (some [])
    searchAt := fun _ => .ok (some
      [{ channelId := "UCfirst", title := some "Other Channel"
         customUrl := some "@other", description := none },
       { channelId := "UCsecond", title := some "Another"
         customUrl := some "@another", description := none }])
    searchNoAt := fun _ => .ok (some [])
    byId := fun _ => .notOk 500 }

/-- C6 witness: with two non-matching candidates, the first one's
identifier is returned. -/
theorem handle_search_fallback_first_witness :
    resolveUsernameToChannelId upNoMatch "nomatch" =
      (some "UCfirst", [UpCall.forUsername "nomatch", UpCall.searchAt "nomatch"]) := by
  have h := handle_search_fallback_first upNoMatch "nomatch"
    { channelId := "UCfirst", title := some "Other Channel"
      customUrl := some "@other", description := none }
    [{ channelId := "UCsecond", title := some "Another"
       customUrl := some "@another", description := none }]
    rfl rfl (by decide)
  exact h

/-- Search candidate ranked earlier whose custom-URL merely contains the
handle as a substring. -/
def cexItemEarlier : SearchItem :=
  { channelId := "ID1", title := some "Alpha", customUrl := some "@abcdef"
    description := none }

/-- Later search candidate whose custom-URL equals the handle exactly. -/
def cexItemExact : SearchItem :=
  { channelId := "ID2", title := some "Beta", customUrl := some "@abc"
    description := none }

/-- Upstream returning the containment-matching candidate before the
exactly-matching one. -/
def upScanOrder : Upstream :=
  { forUser := fun _ => .ok (some [])
    searchAt := fun _ => .ok (some [cexItemEarlier, cexItemExact])
    searchNoAt := fun _ => .ok (some [])
    byId := fun _ => .notOk 500 }

/-- C3 counterexample: for the handle `abc` the list contains a candidate
(`ID2`) whose custom-URL equals `@abc` exactly, yet the resolver returns
`ID1` — the earlier candidate matched the containment check first.  The
loop checks all three predicates per candidate in response order; an exact
custom-URL match is not preferred over earlier candidates. -/
theorem exact_match_overridden_cex :
    lowerStr (cexItemExact.customUrl.getD "") = "@" ++ lowerStr "abc" ∧
    (resolveUsernameToChannelId upScanOrder "abc").1 = some "ID1" ∧
    ("ID1" : String) ≠ cexItemExact.channelId := by
  refine ⟨rfl, rfl, by decide⟩

/-- C3 (amended): the resolver returns the identifier of the first
candidate in response order that matches any of the three checks; in
particular a candidate whose custom-URL equals `@handle` case-insensitively
is returned when no earlier candidate matches any check. -/
theorem exact_match_scan_order (up : Upstream) (u : String)
    (pre : List SearchItem) (it : SearchItem) (rest : List SearchItem)
    (h1 : fetchMisses (up.forUser u) = true)
    (h2 : up.searchAt u = .ok (some (pre ++ it :: rest)))
    (h3 : ∀ j ∈ pre, itemMatches u j = false)
    (h4 : lowerStr (it.customUrl.getD "") = "@" ++ lowerStr u) :
    (resolveUsernameToChannelId up u).1 = some it.channelId := by
  have hit : itemMatches u it = true := by
    unfold itemMatches
    simp [h4]
  have hfind := find?_prefix_false (itemMatches u) pre it rest h3 hit
  rw [resolve_reach_tier2 up u h1]
  unfold tier2
  cases pre with
  | nil =>
    simp only [List.nil_append] at h2 hfind
    rw [h2]
    simp [hfind]
  | cons a t =>
    simp only [List.cons_append] at h2 hfind
    rw [h2]
    simp [hfind]

/-- Upstream realizing the spec's concrete scenario: legacy lookup empty,
`@` search returning one candidate with custom-URL `@kcode_factory`. -/
def upExactHandle : Upstream :=
  { forUser := fun _ => .ok (some [])
    searchAt := fun _ => .ok (some
      [{ channelId := "UCkcode", title := some "KCode Factory"
         customUrl := some "@kcode_factory", description := none }])
    searchNoAt := fun _ => .ok (some [])
    byId := fun _ => .notOk 500 }

/-- C3 witness: the handle `KCode_Factory` (differing in case) resolves
to the candidate whose custom-URL is `@kcode_factory`. -/
theorem exact_match_scan_order_witness :
    (resolveUsernameToChannelId upExactHandle "KCode_Factory").1 =
      some "UCkcode" := by
  have h := exact_match_scan_order upExactHandle "KCode_Factory" []
    { channelId := "UCkcode", title := some "KCode Factory"
      customUrl := some "@kcode_factory", description := none }
    [] rfl rfl (by decide) (by decide)
  exact h

/-- C8 counterexample: the empty response text fails to parse as JSON
(JSON.parse of the empty string throws), yet the second-revision
summarizeVideo substitutes the empty-object text before parsing and
returns the parsed empty object — not the minimal record with the
original title and the raw text as content. -/
theorem empty_text_parse_cex :
    summarizeSecondRev "T" (some "") (fun _ => none) = .parsed emptyParsed ∧
    SummarizeOut.parsed emptyParsed ≠
      .fallback { title := "T", content := "", keyPoints := [], sections := []
                  tags := [], insights := [], coreTheme := "영상 분석" } := by
  exact ⟨rfl, by decide⟩

/-- C8 (amended): for every non-empty response text that fails to parse as
JSON, the second-revision summarizeVideo returns the minimal record —
original video title, the raw response text as content, empty keyPoints,
sections, tags and insights (and coreTheme `영상 분석`) — instead of
propagating an error. -/
theorem summarize_parse_failure_minimal (videoTitle text : String)
    (parse : String → Option ParsedSummary)
    (hne : text ≠ "") (hp : parse text = none) :
    summarizeSecondRev videoTitle (some text) parse =
      .fallback { title := videoTitle, content := text, keyPoints := []
                  sections := [], tags := [], insights := []
                  coreTheme := "영상 분석" } := by
  unfold summarizeSecondRev fallbackSummary
  simp [hne, hp]

/-- C8 witness: a plain-text (non-JSON) reply yields the minimal record. -/
theorem summarize_parse_failure_minimal_witness :
    summarizeSecondRev "비디오 제목" (some "plain text reply") (fun _ => none) =
      .fallback { title := "비디오 제목", content := "plain text reply"
                  keyPoints := [], sections := [], tags := [], insights := []
                  coreTheme := "영상 분석" } :=
  summarize_parse_failure_minimal "비디오 제목" "plain text reply"
    (fun _ => none) (by decide) rfl

end YTSync
